import Mathlib

/-!
Verification of the groundwater salinisation dashboard (`src/app.py`).

The core pipeline is embedded shallowly:
* numeric sample values are exact rationals (`ℚ`);
* the pandas float division used for the diagnostic ratios is modelled by
  `FloatVal`/`fvDiv`, which records the IEEE-754 zero-denominator outcomes
  (`inf`, `neginf`, `nan`) explicitly and is exact elsewhere;
* a dataframe is a list of rows, and the upload stage is an `Except` over
  the missing-column check.
-/

namespace Salinisation

/-- A pandas float cell: an exact rational, or one of the special values
produced by dividing by zero. -/
inductive FloatVal where
  | val (q : ℚ)
  | inf
  | neginf
  | nan
deriving DecidableEq, Repr

/-- True exactly on the `nan` cell; pandas reductions skip these. -/
def FloatVal.isNan : FloatVal → Bool
  | .nan => true
  | _ => false

/-- Pandas float division.  On nonzero denominators it is the exact rational
quotient; a zero denominator yields `inf`, `neginf` or `nan` according to the
sign of the numerator, as IEEE-754 division does.  (The dashboard only ever
divides two `val` cells; the remaining cases are conservatively `nan`.) -/
def fvDiv : FloatVal → FloatVal → FloatVal
  | .val a, .val b =>
      if b = 0 then (if 0 < a then .inf else if a < 0 then .neginf else .nan)
      else .val (a / b)
  | _, _ => .nan

/-- IEEE-754 `≤` on float cells: `nan` compares false to everything. -/
def fvLe : FloatVal → FloatVal → Bool
  | .nan, _ => false
  | _, .nan => false
  | .val a, .val b => decide (a ≤ b)
  | .val _, .inf => true
  | .val _, .neginf => false
  | .inf, .inf => true
  | .inf, .val _ => false
  | .inf, .neginf => false
  | .neginf, _ => true

/-- IEEE-754 `<` on float cells: `nan` compares false to everything. -/
def fvLt : FloatVal → FloatVal → Bool
  | .nan, _ => false
  | _, .nan => false
  | .val a, .val b => decide (a < b)
  | .val _, .inf => true
  | .val _, .neginf => false
  | .inf, _ => false
  | .neginf, .neginf => false
  | .neginf, _ => true

/-- Insert one cell into a list sorted by `fvLe`. -/
def fvInsert (x : FloatVal) : List FloatVal → List FloatVal
  | [] => [x]
  | y :: ys => if fvLe x y then x :: y :: ys else y :: fvInsert x ys

/-- Insertion sort by `fvLe` (the order pandas sorts non-`nan` floats in). -/
def fvSort : List FloatVal → List FloatVal
  | [] => []
  | x :: xs => fvInsert x (fvSort xs)

/-- Average of the two middle cells of an even-length sample, with the
IEEE-754 special cases (`(a + inf)/2 = inf`, `(inf + (-inf))/2 = nan`). -/
def fvMean2 : FloatVal → FloatVal → FloatVal
  | .val a, .val b => .val ((a + b) / 2)
  | .nan, _ => .nan
  | _, .nan => .nan
  | .val _, .inf => .inf
  | .val _, .neginf => .neginf
  | .inf, .inf => .inf
  | .inf, .neginf => .nan
  | .inf, .val _ => .inf
  | .neginf, .inf => .nan
  | .neginf, .neginf => .neginf
  | .neginf, .val _ => .neginf

/-- Pandas `Series.median()` with its default `skipna=True`: `nan` cells are
dropped, every other cell — infinities included — takes part; the median of
an empty series is `nan`. -/
def floatMedian (xs : List FloatVal) : FloatVal :=
  let ys := fvSort (xs.filter (fun x => ! x.isNan))
  let n := ys.length
  if n = 0 then .nan
  else if n % 2 = 1 then ys.getD (n / 2) .nan
  else fvMean2 (ys.getD (n / 2 - 1) .nan) (ys.getD (n / 2) .nan)

/-- `mgL_to_meq` from `app.py` line 14: `mgL / mw * charge`. -/
def mgL_to_meq (mgL mw charge : ℚ) : ℚ :=
  mgL / mw * charge

/-- `classify_salinisation` from `app.py` lines 17-34: additive EC/Cl
threshold score, then the score-to-status mapping.  Returns
`(status, score)` as the Python function does. -/
def classify_salinisation (ec cl : ℚ) : String × ℚ :=
  let score : ℚ :=
    (if ec > 1500 then 50 else if ec > 750 then 25 else 0) +
    (if cl > 250 then 50 else if cl > 100 then 25 else 0)
  if score ≥ 75 then ("🔴 Saline", score)
  else if score ≥ 40 then ("🟡 Slightly Saline", score)
  else ("🟢 Fresh", score)

/-- Recommendation text of the fresh-aquifer branch (`app.py` lines 46-50). -/
def freshAquiferText : String :=
  "Overall groundwater quality indicates a fresh aquifer with no significant salinisation impact. Current groundwater use is sustainable; however, periodic monitoring is recommended to detect future changes."

/-- Recommendation text of the early-stage branch (`app.py` lines 53-57). -/
def earlyStageText : String :=
  "The aquifer shows early-stage salinisation, with a mix of fresh and slightly saline samples. Preventive management measures such as regulated pumping, controlled abstraction, and regular hydrochemical monitoring are advised."

/-- Recommendation text of the seawater-intrusion branch (`app.py` lines 61-66). -/
def seawaterText : String :=
  "A significant proportion of samples indicate salinisation with Na/Cl ratios close to unity, suggesting seawater intrusion. Immediate intervention is required, including reduction of groundwater abstraction near the coast, artificial recharge, and implementation of hydraulic control measures."

/-- Recommendation text of the evaporation/ion-exchange branch (`app.py` lines 68-72). -/
def evaporationText : String :=
  "Widespread salinisation is observed, likely influenced by evaporation and ion exchange processes. Groundwater is unsuitable for drinking purposes, and alternative water sources or blending strategies should be considered."

/-- Recommendation text of the chloride-dominated branch (`app.py` lines 74-78). -/
def chlorideText : String :=
  "The aquifer is affected by chloride-dominated salinity. Restriction of domestic usage and implementation of long-term salinity mitigation strategies are strongly recommended."

/-- Fallback text (`app.py` line 80). -/
def insufficientText : String :=
  "Insufficient data to derive an overall recommendation."

/-- The branch selection of `generate_overall_recommendation` (`app.py`
lines 45-80) as a function of the three statistics that drive it. -/
def recommendFromStats (saline_frac slight_frac : ℚ) (median_na_cl : FloatVal) : String :=
  if saline_frac < 0.2 ∧ slight_frac < 0.3 then freshAquiferText
  else if saline_frac < 0.4 then earlyStageText
  else if saline_frac ≥ 0.4 then
    (if fvLe (FloatVal.val 0.85) median_na_cl && fvLe median_na_cl (FloatVal.val 1.15) then
      seawaterText
    else if fvLt (FloatVal.val 1.15) median_na_cl then evaporationText
    else chlorideText)
  else insufficientText

/-- One uploaded data row with the six required columns. -/
structure Row where
  Na : ℚ
  Ca : ℚ
  Mg : ℚ
  Cl : ℚ
  HCO3 : ℚ
  EC : ℚ
deriving DecidableEq, Repr

/-- One row of the enriched dataframe: the original values together with the
columns the pipeline adds (`app.py` lines 106-126). -/
structure EnrichedRow where
  row : Row
  Na_meq : ℚ
  Ca_meq : ℚ
  Mg_meq : ℚ
  Cl_meq : ℚ
  HCO3_meq : ℚ
  Na_Cl : FloatVal
  Cl_HCO3 : FloatVal
  Salinity_Status : String
  Confidence_percent : ℚ
deriving DecidableEq, Repr

/-- Lines 106-126 of `app.py`, restricted to a single row: meq conversion
with the fixed molar masses and charges, the two diagnostic ratios via
pandas float division, and the per-row classification. -/
def enrichRow (r : Row) : EnrichedRow :=
  let na_meq := mgL_to_meq r.Na 23 1
  let ca_meq := mgL_to_meq r.Ca 40 2
  let mg_meq := mgL_to_meq r.Mg 24.3 2
  let cl_meq := mgL_to_meq r.Cl 35.45 1
  let hco3_meq := mgL_to_meq r.HCO3 61 1
  let res := classify_salinisation r.EC r.Cl
  { row := r
    Na_meq := na_meq
    Ca_meq := ca_meq
    Mg_meq := mg_meq
    Cl_meq := cl_meq
    HCO3_meq := hco3_meq
    Na_Cl := fvDiv (.val na_meq) (.val cl_meq)
    Cl_HCO3 := fvDiv (.val cl_meq) (.val hco3_meq)
    Salinity_Status := res.1
    Confidence_percent := res.2 }

/-- `df["Salinity_Status"].value_counts(normalize=True).get(status, 0)`: the
fraction of rows carrying `status`.  On an empty frame the pandas `get`
default gives `0`; in `ℚ` the division by the zero length gives `0` as
well, so no case split is needed. -/
def valueCountFrac (df : List EnrichedRow) (status : String) : ℚ :=
  ((df.filter (fun r => r.Salinity_Status == status)).length : ℚ) / (df.length : ℚ)

/-- `generate_overall_recommendation` from `app.py` lines 36-80.  The source
also computes `median_cl_hco3` (line 42) and `max_ec` (line 43); neither is
read by any branch, so only `median_cl_hco3` is kept here, as the statistics
the claims mention. -/
def generate_overall_recommendation (df : List EnrichedRow) : String :=
  let saline_frac := valueCountFrac df "🔴 Saline"
  let slight_frac := valueCountFrac df "🟡 Slightly Saline"
  let median_na_cl := floatMedian (df.map (fun r => r.Na_Cl))
  recommendFromStats saline_frac slight_frac median_na_cl

/-- `median_cl_hco3` as line 42 of `app.py` computes it (never read by the
decision logic). -/
def median_cl_hco3 (df : List EnrichedRow) : FloatVal :=
  floatMedian (df.map (fun r => r.Cl_HCO3))

/-- `required_cols` from `app.py` line 96. -/
def required_cols : List String := ["Na", "Ca", "Mg", "Cl", "HCO3", "EC"]

/-- `missing = [c for c in required_cols if c not in df.columns]`
(`app.py` line 97). -/
def missingCols (columns : List String) : List String :=
  required_cols.filter (fun c => ! columns.contains c)

/-- The upload-stage control flow of `app.py` lines 96-160: when any
required column is missing the run stops (`st.error` + `st.stop`) with the
missing list and nothing else is computed; otherwise the frame is enriched
and the overall recommendation produced. -/
def runPipeline (columns : List String) (rows : List Row) :
    Except (List String) (List EnrichedRow × String) :=
  let missing := missingCols columns
  if missing ≠ [] then .error missing
  else
    let df := rows.map enrichRow
    .ok (df, generate_overall_recommendation df)

/-- First-match selection over a priority list of guarded texts; used to
state the spec's "evaluated in this priority order — first matching branch
wins" reading of section 4.4. -/
def firstMatch : List (Bool × String) → String → String
  | [], d => d
  | (c, t) :: rest, d => if c then t else firstMatch rest d

/-- Spec section 4.4 written as an explicit priority list.  The third spec
branch is subdivided by `median_na_cl`, so it contributes three guarded
entries, all guarded by `saline_frac ≥ 0.4`. -/
def specSelect (saline_frac slight_frac : ℚ) (median_na_cl : FloatVal) : String :=
  firstMatch
    [ (decide (saline_frac < 0.2 ∧ slight_frac < 0.3), freshAquiferText),
      (decide (saline_frac < 0.4), earlyStageText),
      (decide (saline_frac ≥ 0.4) &&
        (fvLe (FloatVal.val 0.85) median_na_cl && fvLe median_na_cl (FloatVal.val 1.15)),
        seawaterText),
      (decide (saline_frac ≥ 0.4) && fvLt (FloatVal.val 1.15) median_na_cl, evaporationText),
      (decide (saline_frac ≥ 0.4), chlorideText) ]
    insufficientText

/-- Median of the sodium-chloride ratios as the spec prescribes it: samples
whose denominator equivalence value is zero are excluded, every other
sample contributes its exact ratio. -/
def specMedianNaCl (rows : List Row) : FloatVal :=
  floatMedian ((rows.filter (fun r => decide (mgL_to_meq r.Cl 35.45 1 ≠ 0))).map
    (fun r => FloatVal.val (mgL_to_meq r.Na 23 1 / mgL_to_meq r.Cl 35.45 1)))

/-- Severity rank of the recommendation texts, in the order the claims give:
the fresh-aquifer branch is least severe, the early-stage branch next, and
the three `saline_frac ≥ 0.4` branches most severe. -/
def textSeverity (t : String) : ℕ :=
  if t = freshAquiferText then 0
  else if t = earlyStageText then 1
  else 2

/-- EC contribution exactly as spec section 4.3 words it. -/
def ecContributionSpec (ec : ℚ) : ℚ :=
  if ec > 1500 then 50 else if 750 < ec ∧ ec ≤ 1500 then 25 else 0

/-- Cl contribution exactly as spec section 4.3 words it. -/
def clContributionSpec (cl : ℚ) : ℚ :=
  if cl > 250 then 50 else if 100 < cl ∧ cl ≤ 250 then 25 else 0

/-- Score-to-status mapping exactly as spec section 4.3 words it. -/
def statusOfScoreSpec (score : ℚ) : String :=
  if score ≥ 75 then "🔴 Saline"
  else if 40 ≤ score ∧ score < 75 then "🟡 Slightly Saline"
  else "🟢 Fresh"

/-- A sample the classifier marks Fresh (EC 100, Cl 50), with Na chosen so
that its Na/Cl equivalence ratio is exactly 1 (`Na = 460·50/709`). -/
def freshRow : Row := ⟨23000/709, 0, 0, 50, 61, 100⟩

/-- A sample the classifier marks Slightly Saline (EC 1000, Cl 200), with
Na/Cl equivalence ratio exactly 1. -/
def slightRow : Row := ⟨92000/709, 0, 0, 200, 61, 1000⟩

/-- A sample the classifier marks Saline (EC 2000, Cl 300), with Na/Cl
equivalence ratio exactly 1. -/
def salineRow : Row := ⟨138000/709, 0, 0, 300, 61, 2000⟩

/-- Seven Slightly Saline samples and thirteen Fresh ones: `saline_frac = 0`,
`slight_frac = 7/20`, all Na/Cl ratios 1. -/
def rowsD1 : List Row :=
  [slightRow, slightRow, slightRow, slightRow, slightRow, slightRow, slightRow,
   freshRow, freshRow, freshRow, freshRow, freshRow, freshRow, freshRow,
   freshRow, freshRow, freshRow, freshRow, freshRow, freshRow]

/-- `rowsD1` with four Saline samples appended: `saline_frac = 4/24`,
`slight_frac = 7/24`, all Na/Cl ratios still 1. -/
def rowsD2 : List Row := rowsD1 ++ [salineRow, salineRow, salineRow, salineRow]

/-- The spec section 8 end-to-end scenario: ten samples, five Saline
(EC > 1500, Cl > 250) and five Fresh (EC < 750, Cl < 100), with
`median_na_cl = 1`. -/
def dataset10 : List Row :=
  [salineRow, salineRow, salineRow, salineRow, salineRow,
   freshRow, freshRow, freshRow, freshRow, freshRow]

/-- Three samples for the median computation: Na/Cl ratios 1, 2 and (for the
zero-chloride sample) pandas `inf`. -/
def rowsC4 : List Row :=
  [⟨23, 0, 0, 35.45, 61, 100⟩, ⟨46, 0, 0, 35.45, 61, 100⟩, ⟨23, 0, 0, 0, 61, 100⟩]

/-- The enriched form of `freshRow`, fully evaluated. -/
lemma enrich_freshRow :
    enrichRow freshRow =
      ⟨freshRow, 1000/709, 0, 0, 1000/709, 1, .val 1, .val (1000/709), "🟢 Fresh", 0⟩ := by
  norm_num [enrichRow, freshRow, mgL_to_meq, classify_salinisation, fvDiv]

/-- The enriched form of `slightRow`, fully evaluated. -/
lemma enrich_slightRow :
    enrichRow slightRow =
      ⟨slightRow, 4000/709, 0, 0, 4000/709, 1, .val 1, .val (4000/709),
        "🟡 Slightly Saline", 50⟩ := by
  norm_num [enrichRow, slightRow, mgL_to_meq, classify_salinisation, fvDiv]

/-- The enriched form of `salineRow`, fully evaluated. -/
lemma enrich_salineRow :
    enrichRow salineRow =
      ⟨salineRow, 6000/709, 0, 0, 6000/709, 1, .val 1, .val (6000/709), "🔴 Saline", 100⟩ := by
  norm_num [enrichRow, salineRow, mgL_to_meq, classify_salinisation, fvDiv]

/-- The EC summand of the classifier equals the spec's EC contribution. -/
lemma ec_contribution_eq (ec : ℚ) :
    (if ec > 1500 then (50:ℚ) else if ec > 750 then 25 else 0) = ecContributionSpec ec := by
  unfold ecContributionSpec
  by_cases h1 : ec > 1500
  · simp [h1]
  · have h1' : ec ≤ 1500 := not_lt.mp h1
    by_cases h2 : ec > 750
    · simp [h1, h2, h1']
    · simp [h1, h2]

/-- The Cl summand of the classifier equals the spec's Cl contribution. -/
lemma cl_contribution_eq (cl : ℚ) :
    (if cl > 250 then (50:ℚ) else if cl > 100 then 25 else 0) = clContributionSpec cl := by
  unfold clContributionSpec
  by_cases h1 : cl > 250
  · simp [h1]
  · have h1' : cl ≤ 250 := not_lt.mp h1
    by_cases h2 : cl > 100
    · simp [h1, h2, h1']
    · simp [h1, h2]

/-- The classifier, rewritten through the spec's contribution and status
functions. -/
lemma classify_eq (ec cl : ℚ) :
    classify_salinisation ec cl =
      (statusOfScoreSpec (ecContributionSpec ec + clContributionSpec cl),
        ecContributionSpec ec + clContributionSpec cl) := by
  simp only [classify_salinisation, ec_contribution_eq, cl_contribution_eq]
  set s := ecContributionSpec ec + clContributionSpec cl with hs
  unfold statusOfScoreSpec
  by_cases h1 : s ≥ 75
  · simp [h1]
  · by_cases h2 : s ≥ 40
    · simp [h1, h2, not_le.mp h1]
    · simp [h1, h2]

/-- No choice of statistics reaches the fallback text: the second and third
branch conditions of the decision logic are complementary. -/
lemma recommendFromStats_ne_insufficient (s sl : ℚ) (m : FloatVal) :
    recommendFromStats s sl m ≠ insufficientText := by
  unfold recommendFromStats
  split_ifs <;>
    simp [freshAquiferText, earlyStageText, seawaterText, evaporationText,
      chlorideText, insufficientText] <;>
    linarith

/-- Severity of the fresh-aquifer text. -/
lemma textSeverity_fresh : textSeverity freshAquiferText = 0 := by
  simp [textSeverity]

/-- Severity of the early-stage text. -/
lemma textSeverity_early : textSeverity earlyStageText = 1 := by
  simp [textSeverity, freshAquiferText, earlyStageText]

/-- Severity of the seawater-intrusion text. -/
lemma textSeverity_seawater : textSeverity seawaterText = 2 := by
  simp [textSeverity, freshAquiferText, earlyStageText, seawaterText]

/-- Severity of the evaporation/ion-exchange text. -/
lemma textSeverity_evaporation : textSeverity evaporationText = 2 := by
  simp [textSeverity, freshAquiferText, earlyStageText, evaporationText]

/-- Severity of the chloride-dominated text. -/
lemma textSeverity_chloride : textSeverity chlorideText = 2 := by
  simp [textSeverity, freshAquiferText, earlyStageText, chlorideText]

/-- The branch severity selected by the decision logic, as a function of the
two fractions alone. -/
lemma textSeverity_recommendFromStats (s sl : ℚ) (m : FloatVal) :
    textSeverity (recommendFromStats s sl m) =
      if s < 0.2 ∧ sl < 0.3 then 0 else if s < 0.4 then 1 else 2 := by
  unfold recommendFromStats
  split_ifs <;>
    first
      | simp [textSeverity_fresh, textSeverity_early, textSeverity_seawater,
          textSeverity_evaporation, textSeverity_chloride]
      | linarith

/-- C1 as stated is false: at EC = 1500 and Cl = 0 the score is 25, which
the score-to-status mapping sends to Fresh (25 < 40), not Slightly Saline. -/
theorem classify_boundary_counterexample :
    classify_salinisation 1500 0 ≠ ("🟡 Slightly Saline", 25) ∧
    classify_salinisation 1500 0 = ("🟢 Fresh", 25) := by
  constructor <;> norm_num [classify_salinisation] <;> simp

/-- C1 amended: for EC = 1500 and Cl = 0 the classifier returns score 25 and
status Fresh (not Saline, and not Slightly Saline either, since 25 < 40);
for EC = 1501 and Cl = 0 it returns score 50 and Slightly Saline; for
EC = 1501 and Cl = 251 it returns score 100 and Saline. -/
theorem classify_boundary_amended :
    classify_salinisation 1500 0 = ("🟢 Fresh", 25) ∧
    classify_salinisation 1501 0 = ("🟡 Slightly Saline", 50) ∧
    classify_salinisation 1501 251 = ("🔴 Saline", 100) := by
  refine ⟨?_, ?_, ?_⟩ <;> norm_num [classify_salinisation]

/-- C2 fails on the code: for a sample with Cl = 0 (so `Cl_meq = 0`) the
pandas division produces `inf` when `Na_meq > 0` and `nan` when
`Na_meq = 0` — never an explicit undefined marker — and likewise for
`Cl_HCO3` when `HCO3_meq = 0`. -/
theorem ratio_zero_denominator_yields_infinite :
    (enrichRow ⟨23, 0, 0, 0, 61, 100⟩).Na_Cl = FloatVal.inf ∧
    (enrichRow ⟨0, 0, 0, 0, 61, 100⟩).Na_Cl = FloatVal.nan ∧
    (enrichRow ⟨0, 0, 0, 35.45, 0, 100⟩).Cl_HCO3 = FloatVal.inf := by
  refine ⟨?_, ?_, ?_⟩ <;> norm_num [enrichRow, mgL_to_meq, fvDiv]

/-- C4 fails on the code: over the three samples of `rowsC4` (defined Na/Cl
ratios 1 and 2, plus a zero-chloride sample whose ratio is pandas `inf`),
the median the code computes is 2 — the infinite ratio is included and
shifts it — while the spec's median over defined ratios only is 3/2; a
zero-`HCO3` sample likewise puts `inf` into `median_cl_hco3`. -/
theorem median_includes_infinite_ratio :
    floatMedian ((rowsC4.map enrichRow).map (fun r => r.Na_Cl)) = FloatVal.val 2 ∧
    specMedianNaCl rowsC4 = FloatVal.val (3/2) ∧
    median_cl_hco3 (([⟨0, 0, 0, 35.45, 0, 100⟩] : List Row).map enrichRow) = FloatVal.inf := by
  refine ⟨?_, ?_, ?_⟩ <;>
    norm_num [rowsC4, enrichRow, mgL_to_meq, fvDiv, specMedianNaCl, median_cl_hco3,
      floatMedian, fvSort, fvInsert, fvLe, FloatVal.isNan, fvMean2,
      List.filter_cons, List.filter_nil, List.getD_cons_zero, List.getD_cons_succ]

/-- C6: the unit converter returns `c / m * z`; the pipeline applies it with
exactly the constants Na (23, 1), Ca (40, 2), Mg (24.3, 2), Cl (35.45, 1),
HCO3 (61, 1); and for Na = 23 with Cl = 35.45 both equivalence values are 1
and the Na/Cl ratio is exactly 1. -/
theorem unit_conversion_contract :
    (∀ c m z : ℚ, mgL_to_meq c m z = c / m * z) ∧
    (∀ r : Row,
      (enrichRow r).Na_meq = mgL_to_meq r.Na 23 1 ∧
      (enrichRow r).Ca_meq = mgL_to_meq r.Ca 40 2 ∧
      (enrichRow r).Mg_meq = mgL_to_meq r.Mg 24.3 2 ∧
      (enrichRow r).Cl_meq = mgL_to_meq r.Cl 35.45 1 ∧
      (enrichRow r).HCO3_meq = mgL_to_meq r.HCO3 61 1) ∧
    ((enrichRow ⟨23, 0, 0, 35.45, 61, 0⟩).Na_meq = 1 ∧
     (enrichRow ⟨23, 0, 0, 35.45, 61, 0⟩).Cl_meq = 1 ∧
     (enrichRow ⟨23, 0, 0, 35.45, 61, 0⟩).Na_Cl = FloatVal.val 1) := by
  refine ⟨fun c m z => rfl, fun r => ⟨rfl, rfl, rfl, rfl, rfl⟩, ?_, ?_, ?_⟩ <;>
    norm_num [enrichRow, mgL_to_meq, fvDiv]

/-- C8: whenever required columns are missing, the pipeline stops with
exactly that list and performs no core computation; a dataset lacking only
HCO3 is rejected with exactly `["HCO3"]`. -/
theorem missing_columns_fail_fast :
    (∀ (columns : List String) (rows : List Row),
      missingCols columns ≠ [] → runPipeline columns rows = .error (missingCols columns)) ∧
    missingCols ["Na", "Ca", "Mg", "Cl", "EC"] = ["HCO3"] := by
  refine ⟨fun columns rows h => ?_, rfl⟩
  simp [runPipeline, h]

/-- C8 witness: the concrete dataset lacking only HCO3. -/
theorem missing_columns_fail_fast_witness :
    missingCols ["Na", "Ca", "Mg", "Cl", "EC"] ≠ [] ∧
    runPipeline ["Na", "Ca", "Mg", "Cl", "EC"] [] = .error ["HCO3"] := by
  refine ⟨by decide, ?_⟩
  rw [missing_columns_fail_fast.1 ["Na", "Ca", "Mg", "Cl", "EC"] [] (by decide)]
  rfl

/-- C5: for all nonnegative EC and Cl the score lies in {0, 25, 50, 75,
100}, it is the sum of the spec's EC and Cl contributions, and the status
is the spec's score-to-status mapping applied to the score. -/
theorem classify_score_and_status_spec (ec cl : ℚ) (hec : 0 ≤ ec) (hcl : 0 ≤ cl) :
    ((classify_salinisation ec cl).2 = 0 ∨ (classify_salinisation ec cl).2 = 25 ∨
      (classify_salinisation ec cl).2 = 50 ∨ (classify_salinisation ec cl).2 = 75 ∨
      (classify_salinisation ec cl).2 = 100) ∧
    (classify_salinisation ec cl).2 = ecContributionSpec ec + clContributionSpec cl ∧
    (classify_salinisation ec cl).1 = statusOfScoreSpec (classify_salinisation ec cl).2 := by
  rw [classify_eq]
  refine ⟨?_, rfl, rfl⟩
  unfold ecContributionSpec clContributionSpec
  split_ifs <;> norm_num

/-- C5 witness: EC = 1600, Cl = 300. -/
theorem classify_score_and_status_spec_witness :
    (0:ℚ) ≤ 1600 ∧ (0:ℚ) ≤ 300 ∧
    (classify_salinisation 1600 300).2 = ecContributionSpec 1600 + clContributionSpec 300 :=
  ⟨by norm_num, by norm_num,
    (classify_score_and_status_spec 1600 300 (by norm_num) (by norm_num)).2.1⟩

/-- C9: for fractions in [0, 1] (indeed for any statistics at all) one of
the three main branches always matches, so neither the statistics-level
decision logic nor `generate_overall_recommendation` ever returns the
insufficient-data fallback text. -/
theorem fallback_branch_unreachable :
    (∀ (saline_frac slight_frac : ℚ) (m : FloatVal),
      0 ≤ saline_frac → saline_frac ≤ 1 → 0 ≤ slight_frac → slight_frac ≤ 1 →
      recommendFromStats saline_frac slight_frac m ≠ insufficientText) ∧
    (∀ df : List EnrichedRow, generate_overall_recommendation df ≠ insufficientText) :=
  ⟨fun s sl m _ _ _ _ => recommendFromStats_ne_insufficient s sl m,
   fun df => recommendFromStats_ne_insufficient _ _ _⟩

/-- C9 witness: the all-Fresh statistics. -/
theorem fallback_branch_unreachable_witness :
    (0:ℚ) ≤ 0 ∧ (0:ℚ) ≤ 1 ∧
    recommendFromStats 0 0 (FloatVal.val 1) ≠ insufficientText :=
  ⟨le_refl 0, by norm_num,
    fallback_branch_unreachable.1 0 0 (FloatVal.val 1)
      (le_refl 0) (by norm_num) (le_refl 0) (by norm_num)⟩

/-- C10: the classifier is a total function; for every EC ≤ 750 and
Cl ≤ 100 — negative inputs included — it returns Fresh with score 0. -/
theorem classify_fresh_below_thresholds (ec cl : ℚ) (h1 : ec ≤ 750) (h2 : cl ≤ 100) :
    classify_salinisation ec cl = ("🟢 Fresh", 0) := by
  simp only [classify_salinisation]
  rw [if_neg (by linarith : ¬ ec > 1500), if_neg (by linarith : ¬ ec > 750),
      if_neg (by linarith : ¬ cl > 250), if_neg (by linarith : ¬ cl > 100)]
  norm_num

/-- C10 witness: negative EC and Cl. -/
theorem classify_fresh_below_thresholds_witness :
    (-5 : ℚ) ≤ 750 ∧ (-3 : ℚ) ≤ 100 ∧ classify_salinisation (-5) (-3) = ("🟢 Fresh", 0) :=
  ⟨by norm_num, by norm_num,
    classify_fresh_below_thresholds (-5) (-3) (by norm_num) (by norm_num)⟩

/-- C3 as stated is false: `rowsD1` (7 Slightly Saline, 13 Fresh) gets the
early-stage text, yet appending four Saline samples — raising `saline_frac`
from 0 to 1/6 with `median_na_cl` fixed at 1 — drops `slight_frac` from
7/20 to 7/24 < 0.3 and moves the recommendation to the strictly less severe
fresh-aquifer branch. -/
theorem recommendation_not_monotone_counterexample :
    generate_overall_recommendation (rowsD1.map enrichRow) = earlyStageText ∧
    generate_overall_recommendation (rowsD2.map enrichRow) = freshAquiferText ∧
    rowsD2 = rowsD1 ++ [salineRow, salineRow, salineRow, salineRow] ∧
    (enrichRow salineRow).Salinity_Status = "🔴 Saline" ∧
    floatMedian ((rowsD1.map enrichRow).map (fun r => r.Na_Cl)) = FloatVal.val 1 ∧
    floatMedian ((rowsD2.map enrichRow).map (fun r => r.Na_Cl)) = FloatVal.val 1 ∧
    textSeverity freshAquiferText < textSeverity earlyStageText := by
  refine ⟨?_, ?_, rfl, ?_, ?_, ?_, ?_⟩
  · simp only [rowsD1, List.map_cons, List.map_nil, enrich_slightRow, enrich_freshRow]
    norm_num [generate_overall_recommendation, valueCountFrac, floatMedian, fvSort, fvInsert,
      fvLe, FloatVal.isNan, fvMean2, List.filter_cons, List.filter_nil,
      List.getD_cons_zero, List.getD_cons_succ, recommendFromStats]
    simp
    norm_num [fvLe, fvLt]
  · simp only [rowsD2, rowsD1, List.append_eq, List.cons_append, List.nil_append,
      List.map_cons, List.map_nil, enrich_slightRow, enrich_freshRow, enrich_salineRow]
    norm_num [generate_overall_recommendation, valueCountFrac, floatMedian, fvSort, fvInsert,
      fvLe, FloatVal.isNan, fvMean2, List.filter_cons, List.filter_nil,
      List.getD_cons_zero, List.getD_cons_succ, recommendFromStats]
    simp
    norm_num [fvLe, fvLt]
  · rw [enrich_salineRow]
  · simp only [rowsD1, List.map_cons, List.map_nil, enrich_slightRow, enrich_freshRow]
    norm_num [floatMedian, fvSort, fvInsert, fvLe, FloatVal.isNan, fvMean2,
      List.filter_cons, List.filter_nil, List.getD_cons_zero, List.getD_cons_succ]
  · simp only [rowsD2, rowsD1, List.append_eq, List.cons_append, List.nil_append,
      List.map_cons, List.map_nil, enrich_slightRow, enrich_freshRow, enrich_salineRow]
    norm_num [floatMedian, fvSort, fvInsert, fvLe, FloatVal.isNan, fvMean2,
      List.filter_cons, List.filter_nil, List.getD_cons_zero, List.getD_cons_succ]
  · rw [textSeverity_fresh, textSeverity_early]
    norm_num

/-- C3 amended: the failure above is forced by sample addition shrinking
`slight_frac`; at the statistics level the monotonicity does hold — with
`slight_frac` and `median_na_cl` both held fixed, a larger `saline_frac`
never selects a strictly less severe branch. -/
theorem recommendation_monotone_fixed_slight (s1 s2 sl : ℚ) (m : FloatVal) (h : s1 ≤ s2) :
    textSeverity (recommendFromStats s1 sl m) ≤ textSeverity (recommendFromStats s2 sl m) := by
  rw [textSeverity_recommendFromStats, textSeverity_recommendFromStats]
  by_cases hC : s2 < 0.2 ∧ sl < 0.3
  · have hA : s1 < 0.2 ∧ sl < 0.3 := ⟨by linarith [hC.1], hC.2⟩
    simp [hA, hC]
  · by_cases hD : s2 < 0.4
    · have hB : s1 < 0.4 := by linarith
      by_cases hA : s1 < 0.2 ∧ sl < 0.3
      · simp [hA, hC, hD]
      · simp [hA, hB, hC, hD]
    · simp only [hC, hD, if_false]
      split_ifs <;> norm_num

/-- C3 amended witness: saline fraction rising from 0 to 1. -/
theorem recommendation_monotone_fixed_slight_witness :
    (0:ℚ) ≤ 1 ∧
    textSeverity (recommendFromStats 0 0 (FloatVal.val 1)) ≤
      textSeverity (recommendFromStats 1 0 (FloatVal.val 1)) :=
  ⟨by norm_num, recommendation_monotone_fixed_slight 0 1 0 (FloatVal.val 1) (by norm_num)⟩

/-- C7: the decision logic is exactly first-match selection over the spec's
priority list, and the ten-sample scenario (five Saline, five Fresh samples
with `median_na_cl = 1`) lands in the seawater-intrusion branch. -/
theorem recommendation_priority_order_and_scenario :
    (∀ (saline_frac slight_frac : ℚ) (m : FloatVal),
      recommendFromStats saline_frac slight_frac m = specSelect saline_frac slight_frac m) ∧
    generate_overall_recommendation (dataset10.map enrichRow) = seawaterText := by
  constructor
  · intro s sl m
    unfold recommendFromStats specSelect
    by_cases h1 : s < 0.2 ∧ sl < 0.3
    · simp [firstMatch, h1]
    · by_cases h2 : s < 0.4
      · simp [firstMatch, h1, h2]
      · have h3 : 0.4 ≤ s := not_lt.mp h2
        simp [firstMatch, h1, h2, h3]
  · simp only [dataset10, List.map_cons, List.map_nil, enrich_salineRow, enrich_freshRow]
    norm_num [generate_overall_recommendation, valueCountFrac, floatMedian, fvSort, fvInsert,
      fvLe, FloatVal.isNan, fvMean2, List.filter_cons, List.filter_nil,
      List.getD_cons_zero, List.getD_cons_succ, recommendFromStats]
    simp
    norm_num [fvLe, fvLt]

example : fvDiv (.val 1) (.val 0) = .inf := by norm_num [fvDiv]
example : fvDiv (.val 0) (.val 0) = .nan := by norm_num [fvDiv]
example : floatMedian [.val 1, .val 2, .inf] = .val 2 := by
  norm_num [floatMedian, fvSort, fvInsert, fvLe, FloatVal.isNan, fvMean2, List.filter, List.getD]
example : floatMedian [.val 1, .val 2] = .val (3/2) := by
  norm_num [floatMedian, fvSort, fvInsert, fvLe, FloatVal.isNan, fvMean2, List.filter, List.getD]
example : recommendFromStats 0.5 0 (.val 1) = seawaterText := by
  norm_num [recommendFromStats, fvLe]
example : recommendFromStats 0 0.35 (.val 1) = earlyStageText := by
  norm_num [recommendFromStats]
example : (enrichRow ⟨23, 0, 0, 35.45, 61, 100⟩).Na_Cl = .val 1 := by
  norm_num [enrichRow, mgL_to_meq, fvDiv]
example : (enrichRow ⟨23, 0, 0, 0, 61, 100⟩).Na_Cl = .inf := by
  norm_num [enrichRow, mgL_to_meq, fvDiv]
example : (enrichRow ⟨23, 0, 0, 0, 61, 100⟩).Salinity_Status = "🟢 Fresh" := by
  norm_num [enrichRow, classify_salinisation]
example : (enrichRow ⟨0, 0, 0, 300, 61, 2000⟩).Salinity_Status = "🔴 Saline" := by
  norm_num [enrichRow, classify_salinisation]
example : missingCols ["Na", "Ca", "Mg", "Cl", "EC"] = ["HCO3"] := rfl

end Salinisation
